import Mathlib

/-!
Shallow embedding of the trend forecaster and the chart-type recommender of
`backend/variants_project/gemini_ai_services.py` (classes `GeminiTrendPredictor`
and `GeminiGraphGenerator`), together with proofs of the specification claims
about them.

Conventions used throughout:
* Python floats are modelled as exact rationals (`ℚ`); the square root taken by
  `pandas.Series.std()` and the Pearson correlation entries live in `ℝ`.
* Calendar dates are modelled as day numbers (`ℕ`): only day-granularity
  differences and orderings of dates are ever used by the code.
* A Python exception that escapes a helper is modelled with `Except.error`;
  an error *dictionary* returned as a value is modelled by a dedicated
  constructor (it is data, not control flow).
* `datetime.now()` is passed in explicitly as a `now : ℕ` parameter, making the
  code's dependence on the clock visible.
-/

namespace GenomicsVariants

/-- Python `min` over a list of day numbers (`daily_counts['date'].min()`).
Returns `0` on `[]`, which is unreachable at every call site (the caller has
already established the list is nonempty). -/
def natMin : List ℕ → ℕ
  | [] => 0
  | x :: xs => xs.foldl min x

/-- Python `max` over a list of day numbers (`daily_counts['date'].max()`).
Returns `0` on `[]` (unreachable, as for `natMin`). -/
def natMax : List ℕ → ℕ
  | [] => 0
  | x :: xs => xs.foldl max x

/-- `daily_counts['date'].nunique()`: the number of distinct calendar days
appearing in the record set. -/
def distinctDayCount (dates : List ℕ) : ℕ := dates.toFinset.card

/-- The zero-filled daily bucket counts: `groupby('date').size()` reindexed over
the full range `[min date, max date]` with `fill_value=0`.  Entry `t` is the
number of records on day `natMin dates + t`. -/
def dailyCounts (dates : List ℕ) : List ℚ :=
  (List.range (natMax dates - natMin dates + 1)).map
    (fun t => (dates.count (natMin dates + t) : ℚ))

/-- Arithmetic mean of a list of rationals (`Series.mean()` / `sum(v)/len(v)`). -/
def mean (l : List ℚ) : ℚ := l.sum / l.length

/-- Mean of the day indices `0, 1, ..., n-1` (the regressor column
`days_since_start`). -/
def idxMean (n : ℕ) : ℚ := ((List.range n).map (fun i => (i : ℚ))).sum / n

/-- Centered sum of squares of the day indices, the denominator of the ordinary
least-squares slope. -/
def sxx (n : ℕ) : ℚ := ((List.range n).map (fun i => ((i : ℚ) - idxMean n) ^ 2)).sum

/-- Centered cross products of day index against daily count, the numerator of
the ordinary least-squares slope. -/
def sxy (ys : List ℚ) : ℚ :=
  (ys.enum.map (fun p => ((p.1 : ℚ) - idxMean ys.length) * (p.2 - mean ys))).sum

/-- The slope fitted by `sklearn.linear_model.LinearRegression` on
`(days_since_start, count)`: with an intercept term and a single regressor, the
least-squares minimiser is the classical closed form `sxy / sxx`. -/
def olsSlope (ys : List ℚ) : ℚ := sxy ys / sxx ys.length

/-- The fitted intercept, `ȳ - slope * x̄`. -/
def olsIntercept (ys : List ℚ) : ℚ := mean ys - olsSlope ys * idxMean ys.length

/-- The trend label computed from the fitted slope, lines 203-209:
`> 0.1` increasing, `< -0.1` decreasing, otherwise stable. -/
def classifyTrend (slope : ℚ) : String :=
  if slope > 1/10 then "increasing"
  else if slope < -(1/10) then "decreasing"
  else "stable"

/-- The square of `daily_counts['count'].std()`: pandas sample variance with
`ddof = 1`. -/
def sampleVar (ys : List ℚ) : ℚ :=
  (ys.map (fun y => (y - mean ys) ^ 2)).sum / ((ys.length : ℚ) - 1)

/-- The prediction record returned by `_generate_predictions` (success case). -/
structure PredResult where
  predicted_counts : List ℚ
  future_dates : List ℕ
  trend_direction : String
  confidence_interval : List (ℝ × ℝ)

/-- `_calculate_prediction_interval`: per-point band
`[max(0, pred - std), pred + std]` with `std` the historical standard
deviation. -/
noncomputable def calculatePredictionInterval (preds : List ℚ) (std : ℝ) :
    List (ℝ × ℝ) :=
  preds.map (fun p : ℚ => (max 0 ((p : ℝ) - std), (p : ℝ) + std))

/-- Outcome of `_generate_predictions`: either the inline error dictionary
`{"error": "Insufficient data for prediction"}` or the prediction record. -/
inductive PredOut where
  | insufficientData (msg : String)
  | result (r : PredResult)

/-- `_generate_predictions(historical_data, days_ahead)`.  `dates` is the list
of record dates (the only attribute the function reads), `now` stands for
`datetime.now().date()` (used only on the degenerate single-day path). -/
noncomputable def generatePredictions (dates : List ℕ) (now : ℕ)
    (daysAhead : ℕ) : PredOut :=
  if dates.length < 7 then .insufficientData "Insufficient data for prediction"
  else if distinctDayCount dates < 2 then
    -- degenerate path: all records fall on fewer than 2 distinct days
    let avgDaily : ℚ := (dates.length : ℚ) / (max 1 (distinctDayCount dates) : ℕ)
    .result {
      predicted_counts := List.replicate daysAhead avgDaily
      future_dates := (List.range daysAhead).map (fun i => now + i + 1)
      trend_direction := "stable"
      confidence_interval := List.replicate daysAhead
        (((max 0 (avgDaily * (8/10)) : ℚ) : ℝ), ((avgDaily * (12/10) : ℚ) : ℝ)) }
  else
    -- regression path over the zero-filled daily buckets
    let ys := dailyCounts dates
    let preds := (List.range daysAhead).map
      (fun i : ℕ => max 0 (olsIntercept ys + olsSlope ys * ((ys.length : ℚ) + (i : ℚ))))
    .result {
      predicted_counts := preds
      future_dates := (List.range daysAhead).map (fun i => natMax dates + 1 + i)
      trend_direction := classifyTrend (olsSlope ys)
      confidence_interval :=
        calculatePredictionInterval preds (Real.sqrt (sampleVar ys)) }

/-- `_calculate_confidence_score`. -/
def confidenceScore (n : ℕ) : ℚ :=
  if n < 14 then 3/10 else if n < 30 then 6/10 else if n < 90 then 8/10 else 9/10

/-- Outcome of `predict_variant_trends`: the inline error dictionary
`{"error": "Insufficient historical data..."}` or the full result.  The LLM
trend analysis and the plotly chart payloads of the success dictionary are
omitted: no claim depends on their contents (the analysis is an external model
response, noted where relevant). -/
inductive ForecastOut where
  | insufficientData
  | ok (predictions : PredOut) (confidence_score : ℚ)

/-- `predict_variant_trends(days_ahead)`, lines 20-40: gate on
`len(historical_data) < 7` (record count), then delegate. -/
noncomputable def predictVariantTrends (dates : List ℕ) (now : ℕ)
    (daysAhead : ℕ) : ForecastOut :=
  if dates.length < 7 then .insufficientData
  else .ok (generatePredictions dates now daysAhead) (confidenceScore dates.length)

/-- A historical series with exactly `c` records on each of the consecutive
days `0, 1, ..., n-1` ("same count every day"). -/
def constantSeries (c n : ℕ) : List ℕ :=
  (List.range n).flatMap (fun t => List.replicate c t)

/-! ## The chart-type recommender (`GeminiGraphGenerator`) -/

/-- A JSON value inside a dataset field's sequence.  Numbers (`int`/`float`,
including `bool`, which `isinstance(x, int)` accepts) are exact rationals;
a dictionary is represented by its key list, the only part the analyzer
reads. -/
inductive Value where
  | num (q : ℚ)
  | str (s : String)
  | dict (keys : List String)
deriving Repr, DecidableEq

/-- `isinstance(x, (int, float))`. -/
def Value.isNum : Value → Bool
  | .num _ => true
  | _ => false

/-- `isinstance(x, str)`. -/
def Value.isStr : Value → Bool
  | .str _ => true
  | _ => false

/-- `isinstance(x, dict)`. -/
def Value.isDict : Value → Bool
  | .dict _ => true
  | _ => false

/-- The numeric payload of a value; `0` for non-numbers.  Only applied to
sequences already known to be all-numeric. -/
def Value.toNum : Value → ℚ
  | .num q => q
  | _ => 0

/-- A dataset: a Python dict in insertion order, each field holding a list of
values.  (Scalar-valued fields are skipped by every analysis branch and are
irrelevant to the claims, so fields are modelled as lists.) -/
abbrev Dataset := List (String × List Value)

/-- `data[key]` where the key is known to be present; `[]` otherwise. -/
def Dataset.valuesOf (ds : Dataset) (key : String) : List Value :=
  (ds.lookup key).getD []

/-- Python `min(value)` over an all-numeric list: `none` models the `TypeError`
Python raises when comparing a number with a non-number (and the unreachable
`ValueError` on an empty list). -/
def pyListMin (v : List Value) : Option ℚ :=
  if v.all Value.isNum then
    match v.map Value.toNum with
    | [] => none
    | x :: xs => some (xs.foldl min x)
  else none

/-- Python `max(value)`, with the same `TypeError` modelling as `pyListMin`. -/
def pyListMax (v : List Value) : Option ℚ :=
  if v.all Value.isNum then
    match v.map Value.toNum with
    | [] => none
    | x :: xs => some (xs.foldl max x)
  else none

/-- Python `sum(value) / len(value)`; `none` models the `TypeError` on
non-numeric elements. -/
def pyListMean (v : List Value) : Option ℚ :=
  if v.all Value.isNum then some ((v.map Value.toNum).sum / v.length) else none

/-- The result record of `_analyze_data_structure`, with dictionaries as
insertion-ordered association lists.  `value_ranges` entries are
`(min, max, mean)`. -/
structure Analysis where
  data_types : List (String × String)
  dimensions : List (String × ℕ)
  value_ranges : List (String × (ℚ × ℚ × ℚ))
  categorical_fields : List String
  numerical_fields : List String
  temporal_fields : List String
  relationships : List (String × List String)
deriving Repr, DecidableEq

/-- The analysis record as initialised at the top of
`_analyze_data_structure`. -/
def emptyAnalysis : Analysis :=
  { data_types := [], dimensions := [], value_ranges := [],
    categorical_fields := [], numerical_fields := [], temporal_fields := [],
    relationships := [] }

/-- The union of the keys of the first five dictionaries (`nested_keys`),
first-seen order standing in for Python's set order. -/
def nestedKeys (sample : List Value) : List String :=
  (sample.flatMap (fun v => match v with | .dict ks => ks | _ => [])).eraseDups

/-- One iteration of the `for key, value in data.items()` loop of
`_analyze_data_structure`.  `Except.error` models the `TypeError` that
`min(value)` raises when a field whose first five values are numeric contains
a non-numeric value further on. -/
def classifyField (acc : Analysis) (kv : String × List Value) :
    Except String Analysis :=
  let key := kv.1
  let value := kv.2
  if value.length > 0 then
    let acc := { acc with dimensions := acc.dimensions ++ [(key, value.length)] }
    let sample := value.take 5
    if sample.all Value.isNum then
      match pyListMin value, pyListMax value, pyListMean value with
      | some mn, some mx, some mu =>
        .ok { acc with
          data_types := acc.data_types ++ [(key, "numerical")]
          numerical_fields := acc.numerical_fields ++ [key]
          value_ranges := acc.value_ranges ++ [(key, (mn, mx, mu))] }
      | _, _, _ =>
        .error "TypeError: comparison not supported between numeric and non-numeric"
    else if sample.all Value.isStr then
      .ok { acc with
        data_types := acc.data_types ++ [(key, "categorical")]
        categorical_fields := acc.categorical_fields ++ [key] }
    else if sample.all Value.isDict then
      .ok { acc with
        data_types := acc.data_types ++ [(key, "complex")]
        relationships := acc.relationships ++ [(key, nestedKeys sample)] }
    else .ok acc
  else .ok acc

/-- The loop of `_analyze_data_structure`, threading the analysis record
through the fields in insertion order; an exception aborts the whole
analysis. -/
def analyzeAux : Analysis → List (String × List Value) → Except String Analysis
  | acc, [] => .ok acc
  | acc, kv :: rest =>
    match classifyField acc kv with
    | .ok acc' => analyzeAux acc' rest
    | .error e => .error e

/-- `_analyze_data_structure(data)`, lines 314-354. -/
def analyzeDataStructure (ds : Dataset) : Except String Analysis :=
  analyzeAux emptyAnalysis ds

/-- `_recommend_graph_types(data_analysis)`, lines 356-380: build the list in
fixed priority order, default to `["bar"]`, truncate to three. -/
def recommendGraphTypes (a : Analysis) : List String :=
  let recs : List String := []
  let recs := if a.temporal_fields.isEmpty then recs else recs ++ ["line"]
  let recs := if 0 < a.categorical_fields.length then recs ++ ["bar"] else recs
  let recs := if a.categorical_fields.length = 1 ∧ 1 ≤ a.numerical_fields.length
    then recs ++ ["pie"] else recs
  let recs := if 2 ≤ a.numerical_fields.length then recs ++ ["scatter"] else recs
  let recs := if 3 ≤ a.numerical_fields.length then recs ++ ["heatmap"] else recs
  let recs := if recs.isEmpty then ["bar"] else recs
  recs.take 3

/-- A generated chart payload.  Only the semantically relevant parts of the
plotly figure are retained: the chosen field names and the data series placed
on the figure.  `err` is the inline `{"error": ...}` dictionary a generator
returns when its field requirements are not met. -/
inductive Chart where
  | err (msg : String)
  | bar (catField numField : String) (x y : List Value)
  | line (xField yField : String) (x y : List Value)
  | pie (catField numField : String) (labels vals : List Value)
  | scatter (xField yField : String) (x y : List Value)
  | heatmap (fields : List String) (matrix : List (List ℝ))

/-- First element of a field list passed through Python truthiness:
`fields[0] if fields else None` followed by `if not field`, which also rejects
the empty string. -/
def truthyHead (l : List String) : Option String :=
  match l.head? with
  | some s => if s = "" then none else some s
  | none => none

/-- `_generate_bar_chart`: pair the first categorical field with the first
numerical field. -/
def generateBarChart (ds : Dataset) (a : Analysis) : Chart :=
  match truthyHead a.categorical_fields, truthyHead a.numerical_fields with
  | some cf, some nf => .bar cf nf (ds.valuesOf cf) (ds.valuesOf nf)
  | _, _ => .err "Insufficient data for bar chart"

/-- `_generate_pie_chart`: same field selection as the bar chart. -/
def generatePieChart (ds : Dataset) (a : Analysis) : Chart :=
  match truthyHead a.categorical_fields, truthyHead a.numerical_fields with
  | some cf, some nf => .pie cf nf (ds.valuesOf cf) (ds.valuesOf nf)
  | _, _ => .err "Insufficient data for pie chart"

/-- `_generate_line_chart`: x is the first temporal field present in the data,
else the first field of the dataset in insertion order; y is the first
numerical field.  Both pass through Python truthiness before the final
check. -/
def generateLineChart (ds : Dataset) (a : Analysis) : Chart :=
  let yField := truthyHead a.numerical_fields
  let xTemp := a.temporal_fields.find? (fun f => (ds.lookup f).isSome)
  let xField :=
    match xTemp with
    | some s => if s = "" then truthyHead (ds.map Prod.fst) else some s
    | none => truthyHead (ds.map Prod.fst)
  match xField, yField with
  | some xf, some yf => .line xf yf (ds.valuesOf xf) (ds.valuesOf yf)
  | _, _ => .err "Insufficient data for line chart"

/-- `_generate_scatter_plot`: requires at least two numerical fields and uses
exactly the first two. -/
def generateScatterPlot (ds : Dataset) (a : Analysis) : Chart :=
  if a.numerical_fields.length < 2 then
    .err "Need at least 2 numerical fields for scatter plot"
  else
    let xf := a.numerical_fields.getD 0 ""
    let yf := a.numerical_fields.getD 1 ""
    .scatter xf yf (ds.valuesOf xf) (ds.valuesOf yf)

/-- A column with every entry centred on the column mean. -/
def centered (xs : List ℚ) : List ℚ := xs.map (fun a => a - mean xs)

/-- Sum of pairwise products of the centred columns: the (unnormalised)
covariance used by the Pearson correlation. -/
def covSum (xs ys : List ℚ) : ℚ :=
  ((centered xs).zipWith (· * ·) (centered ys)).sum

/-- One entry of `pandas.DataFrame.corr()`:
`Σ(x-x̄)(y-ȳ) / (sqrt(Σ(x-x̄)²) * sqrt(Σ(y-ȳ)²))`.  Where pandas produces NaN
(a zero divisor, e.g. a constant column), the Mathlib convention evaluates the
division to `0`; both NaN and `0` differ from `1`, so statements refuting a
unit diagonal transfer. -/
noncomputable def pearson (xs ys : List ℚ) : ℝ :=
  (covSum xs ys : ℝ) / (Real.sqrt (covSum xs xs) * Real.sqrt (covSum ys ys))

/-- The full pairwise correlation matrix over the selected columns. -/
noncomputable def corrMatrix (cols : List (List ℚ)) : List (List ℝ) :=
  cols.map (fun x => cols.map (fun y => pearson x y))

/-- `_generate_heatmap`, lines 532-568: at least 3 numerical fields are
required; the first 5 are collected and `pd.DataFrame` raises `ValueError`
(aborting the whole call) if their sequences have unequal lengths. -/
noncomputable def generateHeatmap (ds : Dataset) (a : Analysis) :
    Except String Chart :=
  if a.numerical_fields.length < 3 then
    .ok (.err "Need at least 3 numerical fields for heatmap")
  else
    let fields := (a.numerical_fields.take 5).filter
      (fun f => (ds.lookup f).isSome)
    if fields.length < 2 then
      .ok (.err "Insufficient numerical data for heatmap")
    else
      let cols := fields.map (fun f => (ds.valuesOf f).map Value.toNum)
      if cols.all (fun c => c.length = (cols.headD []).length) then
        .ok (.heatmap fields (corrMatrix cols))
      else .error "ValueError: All arrays must be of the same length"

/-- `_generate_specific_graph`: dispatch on the chart type, defaulting to a
bar chart for unknown types. -/
noncomputable def generateSpecificGraph (ds : Dataset) (t : String)
    (a : Analysis) : Except String Chart :=
  if t = "bar" then .ok (generateBarChart ds a)
  else if t = "line" then .ok (generateLineChart ds a)
  else if t = "pie" then .ok (generatePieChart ds a)
  else if t = "scatter" then .ok (generateScatterPlot ds a)
  else if t = "heatmap" then generateHeatmap ds a
  else .ok (generateBarChart ds a)

/-- `_generate_visualization_recommendations`. -/
def visualizationRecommendations (a : Analysis) : List String :=
  (if a.temporal_fields.isEmpty then []
    else ["Consider time-series analysis for temporal trends"]) ++
  (if 0 < a.categorical_fields.length then
    ["Use bar or pie charts for categorical data distributions"] else []) ++
  (if 2 ≤ a.numerical_fields.length then
    ["Explore scatter plots to identify relationships between variables"] else []) ++
  (if 3 ≤ a.numerical_fields.length then
    ["Consider correlation analysis and heatmaps"] else []) ++
  (if a.relationships.isEmpty then []
    else ["Nested data structures may benefit from hierarchical visualizations"])

/-- The success dictionary of `generate_graph_from_data`. -/
structure GraphResult where
  graphs : List (String × Chart)
  analysis : Analysis
  recommendations : List String

/-- `generate_graph_from_data(data, graph_type)`, lines 291-312.  The
surrounding `try/except` turns any exception raised inside into a returned
`{"error": str(e)}` dictionary, modelled by the `Except.error` case. -/
noncomputable def generateGraphFromData (ds : Dataset) (graphType : String) :
    Except String GraphResult :=
  match analyzeDataStructure ds with
  | .error e => .error e
  | .ok a =>
    let types := if graphType = "auto" then recommendGraphTypes a else [graphType]
    match types.mapM (fun t => (generateSpecificGraph ds t a).map (fun c => (t, c))) with
    | .error e => .error e
    | .ok graphs => .ok ⟨graphs, a, visualizationRecommendations a⟩

/-! ## Derived characterisations used by the proofs -/

/-- The classification a field receives from its five-element sample. -/
inductive FieldKind where
  | numeric
  | categorical
  | complex
  | skip
deriving Repr, DecidableEq

/-- The sample-based branch `_analyze_data_structure` takes for one field. -/
def fieldKind (v : List Value) : FieldKind :=
  if v.length = 0 then .skip
  else if (v.take 5).all Value.isNum then .numeric
  else if (v.take 5).all Value.isStr then .categorical
  else if (v.take 5).all Value.isDict then .complex
  else .skip

/-- The `(min, max, mean)` triple recorded for a numerical field, as a total
function (defaults are irrelevant: it is only compared on all-numeric
fields). -/
def fieldRange (v : List Value) : ℚ × ℚ × ℚ :=
  ((pyListMin v).getD 0, (pyListMax v).getD 0, (pyListMean v).getD 0)

/-- Functional description of what the analysis loop appends to an
accumulator while processing `ds`, provided no field raises. -/
def accumulate (acc : Analysis) (ds : Dataset) : Analysis :=
  { data_types := acc.data_types ++ ds.filterMap (fun kv =>
      match fieldKind kv.2 with
      | .numeric => some (kv.1, "numerical")
      | .categorical => some (kv.1, "categorical")
      | .complex => some (kv.1, "complex")
      | .skip => none)
    dimensions := acc.dimensions ++
      (ds.filter (fun kv => 0 < kv.2.length)).map (fun kv => (kv.1, kv.2.length))
    value_ranges := acc.value_ranges ++
      (ds.filter (fun kv => decide (fieldKind kv.2 = .numeric))).map
        (fun kv => (kv.1, fieldRange kv.2))
    categorical_fields := acc.categorical_fields ++
      (ds.filter (fun kv => decide (fieldKind kv.2 = .categorical))).map Prod.fst
    numerical_fields := acc.numerical_fields ++
      (ds.filter (fun kv => decide (fieldKind kv.2 = .numeric))).map Prod.fst
    temporal_fields := acc.temporal_fields
    relationships := acc.relationships ++
      (ds.filter (fun kv => decide (fieldKind kv.2 = .complex))).map
        (fun kv => (kv.1, nestedKeys (kv.2.take 5))) }

/-- The effect of processing a single field: `accumulate` specialised to one
key/value pair. -/
def accumulateOne (acc : Analysis) (kv : String × List Value) : Analysis :=
  accumulate acc [kv]

/-- The recommendation policy exactly as the specification words it: a fixed
priority list, a default, then truncation to three.  Compared against the
source translation `recommendGraphTypes`. -/
def specRecommendGraphTypes (a : Analysis) : List String :=
  let recs :=
    (if a.temporal_fields ≠ [] then ["line"] else []) ++
    (if 0 < a.categorical_fields.length then ["bar"] else []) ++
    (if a.categorical_fields.length = 1 ∧ 1 ≤ a.numerical_fields.length
      then ["pie"] else []) ++
    (if 2 ≤ a.numerical_fields.length then ["scatter"] else []) ++
    (if 3 ≤ a.numerical_fields.length then ["heatmap"] else [])
  (if recs = [] then ["bar"] else recs).take 3

/-! ## Concrete inputs used by counterexamples and witnesses -/

/-- Seven records all on the same calendar day: at least 7 records, exactly 1
distinct day. -/
def sameDayRecords : List ℕ := List.replicate 7 0

/-- A dataset with one categorical field `["A","B","C"]` and one numeric field
`[1,2,3]`. -/
def dsCatNum : Dataset :=
  [("cat", [.str "A", .str "B", .str "C"]), ("num", [.num 1, .num 2, .num 3])]

/-- Three equal-length numeric fields and nothing else; none is constant. -/
def dsThreeNum : Dataset :=
  [("a", [.num 1, .num 2]), ("b", [.num 2, .num 4]), ("c", [.num 2, .num 1])]

/-- Three equal-length numeric fields plus one categorical field. -/
def dsThreeNumOneCat : Dataset :=
  [("k", [.str "x"]), ("a", [.num 1]), ("b", [.num 2]), ("c", [.num 3])]

/-- Exactly two equal-length numeric fields. -/
def dsTwoNum : Dataset := [("a", [.num 1, .num 2]), ("b", [.num 3, .num 4])]

/-- Three equal-length numeric fields of which the first is constant. -/
def dsConstNum : Dataset :=
  [("a", [.num 5, .num 5]), ("b", [.num 1, .num 2]), ("c", [.num 2, .num 1])]

/-- Three numeric fields of unequal lengths. -/
def dsUnequalNum : Dataset :=
  [("a", [.num 1, .num 2]), ("b", [.num 3, .num 4]), ("c", [.num 5, .num 6, .num 7])]

/-- A field whose first five values are numeric but whose sixth is a string. -/
def dsNumericThenString : Dataset :=
  [("f", [.num 1, .num 2, .num 3, .num 4, .num 5, .str "x"])]

/-- One field of each classification outcome: numeric, categorical, complex,
mixed sample, empty list. -/
def dsAllKinds : Dataset :=
  [("n", [.num 3, .num 1, .num 2]),
   ("s", [.str "a", .str "b"]),
   ("d", [.dict ["p", "q"], .dict ["q", "r"]]),
   ("m", [.num 1, .str "b"]),
   ("e", [])]

/-- A dataset with a single categorical field and no numeric field. -/
def dsCatOnly : Dataset := [("k", [.str "A", .str "B"])]

/-! ## Helper lemmas: folded minima and maxima -/

theorem foldl_min_le_init {α : Type} [LinearOrder α] (l : List α) (a : α) :
    l.foldl min a ≤ a := by
  induction l generalizing a with
  | nil => exact le_refl a
  | cons x xs ih =>
    exact le_trans (ih (min a x)) (min_le_left a x)

theorem foldl_min_le_mem {α : Type} [LinearOrder α] {l : List α} {x : α}
    (a : α) (hx : x ∈ l) : l.foldl min a ≤ x := by
  induction l generalizing a with
  | nil => cases hx
  | cons y ys ih =>
    rcases List.mem_cons.mp hx with rfl | hmem
    · exact le_trans (foldl_min_le_init ys (min a x)) (min_le_right a x)
    · exact ih (min a y) hmem

theorem le_foldl_max_init {α : Type} [LinearOrder α] (l : List α) (a : α) :
    a ≤ l.foldl max a := by
  induction l generalizing a with
  | nil => exact le_refl a
  | cons x xs ih =>
    exact le_trans (le_max_left a x) (ih (max a x))

theorem le_foldl_max_mem {α : Type} [LinearOrder α] {l : List α} {x : α}
    (a : α) (hx : x ∈ l) : x ≤ l.foldl max a := by
  induction l generalizing a with
  | nil => cases hx
  | cons y ys ih =>
    rcases List.mem_cons.mp hx with rfl | hmem
    · exact le_trans (le_max_right a x) (le_foldl_max_init ys (max a x))
    · exact ih (max a y) hmem

theorem foldl_max_le {α : Type} [LinearOrder α] {l : List α} {a b : α}
    (ha : a ≤ b) (h : ∀ x ∈ l, x ≤ b) : l.foldl max a ≤ b := by
  induction l generalizing a with
  | nil => exact ha
  | cons y ys ih =>
    exact ih (max_le ha (h y (List.mem_cons_self y ys))) fun x hx => h x (List.mem_cons_of_mem y hx)

theorem foldl_min_mem {α : Type} [LinearOrder α] (l : List α) (a : α) :
    l.foldl min a = a ∨ l.foldl min a ∈ l := by
  induction l generalizing a with
  | nil => exact Or.inl rfl
  | cons x xs ih =>
    rcases ih (min a x) with h | h
    · rcases min_cases a x with ⟨hm, -⟩ | ⟨hm, -⟩
      · exact Or.inl (by rw [List.foldl_cons, h, hm])
      · exact Or.inr (by rw [List.foldl_cons, h, hm]; exact List.mem_cons_self x xs)
    · exact Or.inr (List.mem_cons_of_mem x h)

theorem foldl_max_mem {α : Type} [LinearOrder α] (l : List α) (a : α) :
    l.foldl max a = a ∨ l.foldl max a ∈ l := by
  induction l generalizing a with
  | nil => exact Or.inl rfl
  | cons x xs ih =>
    rcases ih (max a x) with h | h
    · rcases max_cases a x with ⟨hm, -⟩ | ⟨hm, -⟩
      · exact Or.inl (by rw [List.foldl_cons, h, hm])
      · exact Or.inr (by rw [List.foldl_cons, h, hm]; exact List.mem_cons_self x xs)
    · exact Or.inr (List.mem_cons_of_mem x h)

theorem natMin_le_mem {l : List ℕ} {x : ℕ} (hx : x ∈ l) : natMin l ≤ x := by
  cases l with
  | nil => cases hx
  | cons y ys =>
    rcases List.mem_cons.mp hx with rfl | hmem
    · exact foldl_min_le_init ys x
    · exact foldl_min_le_mem y hmem

theorem le_natMax_mem {l : List ℕ} {x : ℕ} (hx : x ∈ l) : x ≤ natMax l := by
  cases l with
  | nil => cases hx
  | cons y ys =>
    rcases List.mem_cons.mp hx with rfl | hmem
    · exact le_foldl_max_init ys x
    · exact le_foldl_max_mem y hmem

theorem natMax_le {l : List ℕ} {b : ℕ} (hne : l ≠ []) (h : ∀ x ∈ l, x ≤ b) :
    natMax l ≤ b := by
  cases l with
  | nil => exact absurd rfl hne
  | cons y ys =>
    exact foldl_max_le (h y (List.mem_cons_self y ys)) fun x hx => h x (List.mem_cons_of_mem y hx)

/-! ## Helper lemmas: the constant historical series -/

theorem mem_constantSeries {c n d : ℕ} (hc : 1 ≤ c) :
    d ∈ constantSeries c n ↔ d < n := by
  unfold constantSeries
  simp only [List.mem_flatMap, List.mem_range, List.mem_replicate]
  constructor
  · rintro ⟨t, ht, -, rfl⟩; exact ht
  · intro hd; exact ⟨d, hd, by omega, rfl⟩

theorem length_constantSeries (c n : ℕ) :
    (constantSeries c n).length = n * c := by
  induction n with
  | zero => simp [constantSeries]
  | succ m ih =>
    unfold constantSeries at ih ⊢
    rw [List.range_succ, List.flatMap_append, List.length_append, ih]
    simp [Nat.succ_mul]

theorem count_constantSeries (c n d : ℕ) :
    (constantSeries c n).count d = if d < n then c else 0 := by
  induction n with
  | zero => simp [constantSeries]
  | succ m ih =>
    unfold constantSeries at ih ⊢
    rw [List.range_succ, List.flatMap_append, List.count_append, ih]
    simp only [List.flatMap_cons, List.flatMap_nil, List.append_nil,
      List.count_replicate, beq_iff_eq]
    by_cases h2 : m = d
    · subst h2
      simp [Nat.lt_irrefl, Nat.lt_succ_self]
    · by_cases h1 : d < m
      · simp [h1, h2, Nat.lt_succ_of_lt h1]
      · have hns : ¬ d < m + 1 := by omega
        simp [h1, h2, hns]

theorem distinctDayCount_constantSeries {c n : ℕ} (hc : 1 ≤ c) :
    distinctDayCount (constantSeries c n) = n := by
  unfold distinctDayCount
  have : (constantSeries c n).toFinset = Finset.range n := by
    ext d
    rw [List.mem_toFinset, mem_constantSeries hc, Finset.mem_range]
  rw [this, Finset.card_range]

theorem natMin_constantSeries {c n : ℕ} (hc : 1 ≤ c) (hn : 1 ≤ n) :
    natMin (constantSeries c n) = 0 :=
  Nat.le_zero.mp (natMin_le_mem ((mem_constantSeries hc).mpr hn))

theorem natMax_constantSeries {c n : ℕ} (hc : 1 ≤ c) (hn : 1 ≤ n) :
    natMax (constantSeries c n) = n - 1 := by
  have hne : constantSeries c n ≠ [] := by
    intro h
    have := (mem_constantSeries (d := 0) hc).mpr hn
    simp [h] at this
  refine le_antisymm (natMax_le hne fun x hx => ?_)
    (le_natMax_mem ((mem_constantSeries hc).mpr (by omega)))
  have := (mem_constantSeries hc).mp hx
  omega

/-! ## Helper lemmas: the analysis loop -/

theorem fieldKind_skip_of_nil {v : List Value} (h : ¬ v.length > 0) :
    fieldKind v = .skip := by
  unfold fieldKind
  rw [if_pos (by omega)]

theorem pyListMin_isSome {v : List Value} (hall : v.all Value.isNum = true)
    (hne : v ≠ []) : ∃ q, pyListMin v = some q := by
  unfold pyListMin
  rw [if_pos hall]
  cases hv : v.map Value.toNum with
  | nil => exact absurd (List.map_eq_nil_iff.mp hv) hne
  | cons x xs => exact ⟨_, rfl⟩

theorem pyListMax_isSome {v : List Value} (hall : v.all Value.isNum = true)
    (hne : v ≠ []) : ∃ q, pyListMax v = some q := by
  unfold pyListMax
  rw [if_pos hall]
  cases hv : v.map Value.toNum with
  | nil => exact absurd (List.map_eq_nil_iff.mp hv) hne
  | cons x xs => exact ⟨_, rfl⟩

theorem pyListMean_eq {v : List Value} (hall : v.all Value.isNum = true) :
    pyListMean v = some ((v.map Value.toNum).sum / v.length) := by
  unfold pyListMean
  rw [if_pos hall]

theorem classifyField_ok_of (acc : Analysis) (kv : String × List Value)
    (h : fieldKind kv.2 = .numeric → kv.2.all Value.isNum) :
    classifyField acc kv = .ok (accumulateOne acc kv) := by
  obtain ⟨key, value⟩ := kv
  by_cases hlen : value.length > 0
  case neg =>
    have hnil : value = [] := by
      cases value with
      | nil => rfl
      | cons x xs => simp at hlen
    subst hnil
    unfold classifyField
    simp [accumulateOne, accumulate, List.filter_cons, List.filterMap_cons, fieldKind]
  case pos =>
    by_cases hnum : (value.take 5).all Value.isNum = true
    · have hk : fieldKind value = .numeric := by
        unfold fieldKind
        rw [if_neg (by omega), if_pos hnum]
      have hall : value.all Value.isNum := h hk
      have hne : value ≠ [] := by
        cases value
        · simp at hlen
        · simp
      obtain ⟨mn, hmn⟩ := pyListMin_isSome hall hne
      obtain ⟨mx, hmx⟩ := pyListMax_isSome hall hne
      unfold classifyField
      rw [if_pos hlen, if_pos hnum, hmn, hmx, pyListMean_eq hall]
      simp [accumulateOne, accumulate, hk, hlen, fieldRange, hmn, hmx,
        pyListMean_eq hall, List.filter_cons, List.filterMap_cons]
    · by_cases hstr : (value.take 5).all Value.isStr = true
      · have hk : fieldKind value = .categorical := by
          unfold fieldKind
          rw [if_neg (by omega), if_neg hnum, if_pos hstr]
        unfold classifyField
        rw [if_pos hlen, if_neg hnum, if_pos hstr]
        simp [accumulateOne, accumulate, hk, hlen, List.filter_cons,
          List.filterMap_cons]
      · by_cases hd : (value.take 5).all Value.isDict = true
        · have hk : fieldKind value = .complex := by
            unfold fieldKind
            rw [if_neg (by omega), if_neg hnum, if_neg hstr, if_pos hd]
          unfold classifyField
          rw [if_pos hlen, if_neg hnum, if_neg hstr, if_pos hd]
          simp [accumulateOne, accumulate, hk, hlen, List.filter_cons,
            List.filterMap_cons]
        · have hk : fieldKind value = .skip := by
            unfold fieldKind
            rw [if_neg (by omega), if_neg hnum, if_neg hstr, if_neg hd]
          unfold classifyField
          rw [if_pos hlen, if_neg hnum, if_neg hstr, if_neg hd]
          simp [accumulateOne, accumulate, hk, hlen, List.filter_cons,
            List.filterMap_cons]

theorem classifyField_error_of (acc : Analysis) (kv : String × List Value)
    (h1 : fieldKind kv.2 = .numeric) (h2 : ¬ kv.2.all Value.isNum = true) :
    classifyField acc kv =
      .error "TypeError: comparison not supported between numeric and non-numeric" := by
  obtain ⟨key, value⟩ := kv
  have hlen : value.length > 0 := by
    by_contra hc
    rw [fieldKind_skip_of_nil hc] at h1
    cases h1
  have hnum : (value.take 5).all Value.isNum = true := by
    by_contra hc
    unfold fieldKind at h1
    split_ifs at h1
  have hmin : pyListMin value = none := by
    unfold pyListMin
    rw [if_neg h2]
  unfold classifyField
  rw [if_pos hlen, if_pos hnum, hmin]

theorem accumulate_nil (acc : Analysis) : accumulate acc [] = acc := by
  simp [accumulate]

theorem accumulate_cons (acc : Analysis) (kv : String × List Value)
    (rest : Dataset) :
    accumulate acc (kv :: rest) = accumulate (accumulateOne acc kv) rest := by
  by_cases hlen : 0 < kv.2.length
  · cases hk : fieldKind kv.2 <;>
      simp [accumulateOne, accumulate, hk, hlen, List.filter_cons,
        List.filterMap_cons, List.append_assoc]
  · have hk : fieldKind kv.2 = .skip := fieldKind_skip_of_nil (by omega)
    simp [accumulateOne, accumulate, hk, hlen, List.filter_cons,
      List.filterMap_cons]

theorem analyzeAux_cons (acc : Analysis) (kv : String × List Value)
    (rest : Dataset) :
    analyzeAux acc (kv :: rest) =
      match classifyField acc kv with
      | .ok acc' => analyzeAux acc' rest
      | .error e => .error e := rfl

theorem analyzeAux_cons_ok {acc acc' : Analysis} {kv : String × List Value}
    {rest : Dataset} (h : classifyField acc kv = .ok acc') :
    analyzeAux acc (kv :: rest) = analyzeAux acc' rest := by
  rw [analyzeAux_cons, h]

theorem analyzeAux_ok_of (acc : Analysis) (ds : Dataset)
    (h : ∀ kv ∈ ds, fieldKind kv.2 = .numeric → kv.2.all Value.isNum) :
    analyzeAux acc ds = .ok (accumulate acc ds) := by
  induction ds generalizing acc with
  | nil => rw [accumulate_nil]; rfl
  | cons kv rest ih =>
    rw [analyzeAux_cons_ok (classifyField_ok_of acc kv (h kv (List.mem_cons_self kv rest))),
      accumulate_cons]
    exact ih _ fun kv' hkv' => h kv' (List.mem_cons_of_mem kv hkv')

theorem analyzeAux_ok_inv {acc : Analysis} {ds : Dataset} {a : Analysis}
    (h : analyzeAux acc ds = .ok a) :
    (∀ kv ∈ ds, fieldKind kv.2 = .numeric → kv.2.all Value.isNum) ∧
      a = accumulate acc ds := by
  induction ds generalizing acc with
  | nil =>
    refine ⟨by simp, ?_⟩
    rw [accumulate_nil]
    have hok : Except.ok (ε := String) acc = .ok a := h
    exact (Except.ok.inj hok).symm
  | cons kv rest ih =>
    by_cases hgood : fieldKind kv.2 = .numeric → kv.2.all Value.isNum
    · have h' : analyzeAux (accumulateOne acc kv) rest = .ok a := by
        rw [analyzeAux_cons_ok (classifyField_ok_of acc kv hgood)] at h
        exact h
      obtain ⟨hrest, ha⟩ := ih h'
      refine ⟨?_, by rw [accumulate_cons]; exact ha⟩
      intro kv' hkv'
      rcases List.mem_cons.mp hkv' with rfl | hmem
      · exact hgood
      · exact hrest kv' hmem
    · push_neg at hgood
      rw [analyzeAux_cons,
        classifyField_error_of acc kv hgood.1 (by simpa using hgood.2)] at h
      cases h

theorem analyzeDataStructure_ok_inv {ds : Dataset} {a : Analysis}
    (h : analyzeDataStructure ds = .ok a) :
    (∀ kv ∈ ds, fieldKind kv.2 = .numeric → kv.2.all Value.isNum) ∧
      a = accumulate emptyAnalysis ds :=
  analyzeAux_ok_inv h

theorem lookup_isSome_of_mem_keys {ds : Dataset} {k : String}
    (h : k ∈ ds.map Prod.fst) : (ds.lookup k).isSome := by
  induction ds with
  | nil => simp at h
  | cons kv rest ih =>
    obtain ⟨k1, v1⟩ := kv
    simp only [List.map_cons, List.mem_cons] at h
    by_cases hk : k = k1
    · simp [List.lookup, hk]
    · have hmem : k ∈ List.map Prod.fst rest := by
        rcases h with h | h
        · exact absurd h hk
        · exact h
      have hbeq : (k == k1) = false := beq_eq_false_iff_ne.mpr hk
      have hstep : List.lookup k ((k1, v1) :: rest) = List.lookup k rest := by
        simp [List.lookup, hbeq]
      rw [hstep]
      exact ih hmem

theorem dailyCounts_constantSeries {c n : ℕ} (hc : 1 ≤ c) (hn : 1 ≤ n) :
    dailyCounts (constantSeries c n) = List.replicate n (c : ℚ) := by
  unfold dailyCounts
  rw [natMin_constantSeries hc hn, natMax_constantSeries hc hn]
  have hrange : n - 1 - 0 + 1 = n := by omega
  rw [hrange]
  rw [List.eq_replicate_iff]
  constructor
  · simp
  · intro b hb
    rcases List.mem_map.mp hb with ⟨t, ht, rfl⟩
    rw [List.mem_range] at ht
    rw [count_constantSeries, if_pos (by omega)]

/-! ## Helper lemmas: ordinary least squares on a constant series -/

theorem mean_replicate {n : ℕ} (hn : n ≠ 0) (c : ℚ) :
    mean (List.replicate n c) = c := by
  unfold mean
  rw [List.sum_replicate, List.length_replicate, nsmul_eq_mul]
  have : (n : ℚ) ≠ 0 := Nat.cast_ne_zero.mpr hn
  field_simp

theorem sxy_replicate (n : ℕ) (c : ℚ) : sxy (List.replicate n c) = 0 := by
  unfold sxy
  apply List.sum_eq_zero
  intro x hx
  rcases List.mem_map.mp hx with ⟨p, hp, rfl⟩
  obtain ⟨i, y⟩ := p
  have hy : y ∈ List.replicate n c := by
    rw [List.enum_eq_zip_range] at hp
    exact (List.of_mem_zip hp).2
  obtain ⟨hn, rfl⟩ := List.mem_replicate.mp hy
  rw [mean_replicate hn, sub_self, mul_zero]

theorem olsSlope_replicate (n : ℕ) (c : ℚ) :
    olsSlope (List.replicate n c) = 0 := by
  unfold olsSlope
  rw [sxy_replicate, zero_div]

theorem olsIntercept_replicate {n : ℕ} (hn : n ≠ 0) (c : ℚ) :
    olsIntercept (List.replicate n c) = c := by
  unfold olsIntercept
  rw [olsSlope_replicate, mean_replicate hn, zero_mul, sub_zero]

/-! ## Helper lemmas: the two paths of the forecaster -/

theorem generatePredictions_degenerate (dates : List ℕ) (now H : ℕ)
    (h7 : ¬ dates.length < 7) (hd : distinctDayCount dates < 2) :
    generatePredictions dates now H = .result {
      predicted_counts := List.replicate H
        ((dates.length : ℚ) / (max 1 (distinctDayCount dates) : ℕ))
      future_dates := (List.range H).map (fun i => now + i + 1)
      trend_direction := "stable"
      confidence_interval := List.replicate H
        (((max 0 (((dates.length : ℚ) / (max 1 (distinctDayCount dates) : ℕ)) * (8/10)) : ℚ) : ℝ),
          ((((dates.length : ℚ) / (max 1 (distinctDayCount dates) : ℕ)) * (12/10) : ℚ) : ℝ)) } := by
  unfold generatePredictions
  rw [if_neg h7, if_pos hd]

theorem generatePredictions_regression (dates : List ℕ) (now H : ℕ)
    (h7 : ¬ dates.length < 7) (hd : ¬ distinctDayCount dates < 2) :
    generatePredictions dates now H = .result {
      predicted_counts := (List.range H).map
        (fun i : ℕ => max 0 (olsIntercept (dailyCounts dates) +
          olsSlope (dailyCounts dates) * (((dailyCounts dates).length : ℚ) + (i : ℚ))))
      future_dates := (List.range H).map (fun i => natMax dates + 1 + i)
      trend_direction := classifyTrend (olsSlope (dailyCounts dates))
      confidence_interval := calculatePredictionInterval
        ((List.range H).map
          (fun i : ℕ => max 0 (olsIntercept (dailyCounts dates) +
            olsSlope (dailyCounts dates) * (((dailyCounts dates).length : ℚ) + (i : ℚ)))))
        (Real.sqrt (sampleVar (dailyCounts dates))) } := by
  unfold generatePredictions
  rw [if_neg h7, if_neg hd]

/-! ## Claim C1 -/

/-- C1, counterexample: `sameDayRecords` spans exactly 1 distinct calendar day
(fewer than 7), yet `predict_variant_trends` does not report the
insufficient-data error and returns a full prediction list: the gate counts
records, not distinct days. -/
theorem c1_counterexample :
    distinctDayCount sameDayRecords < 7 ∧
    predictVariantTrends sameDayRecords 0 30 ≠ .insufficientData ∧
    ∃ r conf, predictVariantTrends sameDayRecords 0 30 = .ok (.result r) conf ∧
      r.predicted_counts.length = 30 := by
  have h7 : ¬ sameDayRecords.length < 7 := by decide
  have hd : distinctDayCount sameDayRecords < 2 := by decide
  have hgen := generatePredictions_degenerate sameDayRecords 0 30 h7 hd
  refine ⟨by decide, ?_, ?_⟩
  · unfold predictVariantTrends
    rw [if_neg h7]
    intro hcon
    cases hcon
  · have hPVT : predictVariantTrends sameDayRecords 0 30 =
        .ok (generatePredictions sameDayRecords 0 30)
          (confidenceScore sameDayRecords.length) := by
      unfold predictVariantTrends
      rw [if_neg h7]
    rw [hgen] at hPVT
    exact ⟨_, _, hPVT, by simp⟩

/-- C1 (amended): for every input with fewer than 7 *records*,
`predict_variant_trends` reports the insufficient-data error and produces no
predictions. -/
theorem c1_insufficient_records (dates : List ℕ) (now H : ℕ)
    (h : dates.length < 7) :
    predictVariantTrends dates now H = .insufficientData := by
  unfold predictVariantTrends
  rw [if_pos h]

/-- Witness for `c1_insufficient_records` at a concrete three-record input. -/
theorem c1_insufficient_records_witness :
    ([0, 1, 2] : List ℕ).length < 7 ∧
    predictVariantTrends [0, 1, 2] 0 30 = .insufficientData :=
  ⟨by decide, c1_insufficient_records [0, 1, 2] 0 30 (by decide)⟩

/-! ## Claim C2 -/

/-- C2: for every input passing the 7-record precondition and every positive
horizon `H`, the forecast has `H` predicted counts, `H` future dates and `H`
confidence intervals, and every predicted count is nonnegative — on the
regression path and on the degenerate single-day path alike (the proof splits
on exactly that condition). -/
theorem c2_forecast_shapes (dates : List ℕ) (now H : ℕ) (hH : 0 < H)
    (h7 : 7 ≤ dates.length) :
    ∃ r, generatePredictions dates now H = .result r
      ∧ r.predicted_counts.length = H
      ∧ r.future_dates.length = H
      ∧ r.confidence_interval.length = H
      ∧ ∀ p ∈ r.predicted_counts, 0 ≤ p := by
  have h7' : ¬ dates.length < 7 := by omega
  by_cases hd : distinctDayCount dates < 2
  · refine ⟨_, generatePredictions_degenerate dates now H h7' hd,
      by simp only [List.length_replicate], by simp only [List.length_map, List.length_range],
      by simp only [List.length_replicate], ?_⟩
    intro p hp
    rw [List.eq_of_mem_replicate hp]
    positivity
  · refine ⟨_, generatePredictions_regression dates now H h7' hd,
      by simp only [List.length_map, List.length_range],
      by simp only [List.length_map, List.length_range],
      ?_, ?_⟩
    · show (calculatePredictionInterval _ _).length = H
      simp only [calculatePredictionInterval, List.length_map, List.length_range]
    intro p hp
    rcases List.mem_map.mp hp with ⟨i, hi, rfl⟩
    exact le_max_left 0 _

/-- Witness for `c2_forecast_shapes` on the degenerate single-day input. -/
theorem c2_forecast_shapes_witness :
    0 < 5 ∧ 7 ≤ sameDayRecords.length ∧
    ∃ r, generatePredictions sameDayRecords 0 5 = .result r
      ∧ r.predicted_counts.length = 5
      ∧ r.future_dates.length = 5
      ∧ r.confidence_interval.length = 5
      ∧ ∀ p ∈ r.predicted_counts, 0 ≤ p :=
  ⟨by decide, by decide, c2_forecast_shapes sameDayRecords 0 5 (by decide) (by decide)⟩

/-! ## Claim C3 -/

/-- C3: the trend label is exactly the fixed-absolute-threshold classification
of the fitted slope (`> 0.1` increasing, `< -0.1` decreasing, otherwise
stable), and on a constant historical series — the same count `c ≥ 1` on each
of `n ≥ 7` consecutive days — the forecaster reports "stable" and predicts
exactly that constant for every horizon point. -/
theorem c3_slope_thresholds_constant_stable :
    (∀ s : ℚ,
      (classifyTrend s = "increasing" ↔ 1/10 < s) ∧
      (classifyTrend s = "decreasing" ↔ s < -(1/10)) ∧
      (classifyTrend s = "stable" ↔ -(1/10) ≤ s ∧ s ≤ 1/10)) ∧
    (∀ c n now H : ℕ, 1 ≤ c → 7 ≤ n →
      ∃ r, generatePredictions (constantSeries c n) now H = .result r ∧
        r.trend_direction = "stable" ∧
        r.predicted_counts = List.replicate H (c : ℚ)) := by
  constructor
  · intro s
    unfold classifyTrend
    split_ifs with h1 h2
    · exact ⟨iff_of_true rfl h1, iff_of_false (by decide) (by linarith),
        iff_of_false (by decide) (by rintro ⟨-, hb⟩; linarith)⟩
    · exact ⟨iff_of_false (by decide) (by linarith), iff_of_true rfl h2,
        iff_of_false (by decide) (by rintro ⟨ha, -⟩; linarith)⟩
    · push_neg at h1 h2
      exact ⟨iff_of_false (by decide) (by linarith),
        iff_of_false (by decide) (by linarith), iff_of_true rfl ⟨h2, h1⟩⟩
  · intro c n now H hc hn
    have hn1 : 1 ≤ n := by omega
    have hnz : n ≠ 0 := by omega
    have hnc : n ≤ n * c := Nat.le_mul_of_pos_right n (by omega)
    have h7' : ¬ (constantSeries c n).length < 7 := by
      rw [length_constantSeries]
      omega
    have hd : ¬ distinctDayCount (constantSeries c n) < 2 := by
      rw [distinctDayCount_constantSeries hc]
      omega
    refine ⟨_, generatePredictions_regression (constantSeries c n) now H h7' hd,
      ?_, ?_⟩
    · simp only [dailyCounts_constantSeries hc hn1, olsSlope_replicate]
      norm_num [classifyTrend]
    · simp only [dailyCounts_constantSeries hc hn1, olsSlope_replicate,
        olsIntercept_replicate hnz, zero_mul, add_zero,
        max_eq_right (show (0 : ℚ) ≤ (c : ℚ) from Nat.cast_nonneg c)]
      rw [List.map_const', List.length_range]

/-- Witness for `c3_slope_thresholds_constant_stable`: two records per day for
seven consecutive days. -/
theorem c3_slope_thresholds_constant_stable_witness :
    (1 ≤ 2 ∧ 7 ≤ 7) ∧
    ∃ r, generatePredictions (constantSeries 2 7) 0 3 = .result r ∧
      r.trend_direction = "stable" ∧
      r.predicted_counts = List.replicate 3 (2 : ℚ) :=
  ⟨by decide, c3_slope_thresholds_constant_stable.2 2 7 0 3 (by decide) (by decide)⟩

/-! ## Claim C9 -/

/-- C9, counterexample: the forecaster's result depends on hidden state.  With
the identical historical input `sameDayRecords` and identical horizon, calls
made at two different clock times return different results (the degenerate
path stamps `future_dates` from `datetime.now()`). -/
theorem c9_counterexample :
    generatePredictions sameDayRecords 0 1 ≠ generatePredictions sameDayRecords 5 1 := by
  have h7 : ¬ sameDayRecords.length < 7 := by decide
  have hd : distinctDayCount sameDayRecords < 2 := by decide
  rw [generatePredictions_degenerate sameDayRecords 0 1 h7 hd,
    generatePredictions_degenerate sameDayRecords 5 1 h7 hd]
  intro hcon
  have hr := PredOut.result.inj hcon
  have hdates := congrArg PredResult.future_dates hr
  simp only [] at hdates
  exact absurd hdates (by decide)

/-- C9 (amended): on the regression path — at least 2 distinct calendar days —
the forecaster is deterministic in its input: the clock parameter does not
affect the result.  (The chart recommender takes no clock or other external
input at all in this embedding, mirroring the source.) -/
theorem c9_regression_clock_independent (dates : List ℕ) (now1 now2 H : ℕ)
    (hd : 2 ≤ distinctDayCount dates) :
    generatePredictions dates now1 H = generatePredictions dates now2 H := by
  by_cases h7 : dates.length < 7
  · unfold generatePredictions
    rw [if_pos h7, if_pos h7]
  · rw [generatePredictions_regression dates now1 H h7 (by omega),
      generatePredictions_regression dates now2 H h7 (by omega)]

/-- Witness for `c9_regression_clock_independent` on an eight-day series. -/
theorem c9_regression_clock_independent_witness :
    2 ≤ distinctDayCount (constantSeries 1 8) ∧
    generatePredictions (constantSeries 1 8) 0 5 =
      generatePredictions (constantSeries 1 8) 9 5 :=
  ⟨by decide, c9_regression_clock_independent (constantSeries 1 8) 0 9 5 (by decide)⟩

/-! ## Helper lemmas: full-sequence minima, maxima, key lookups -/

theorem pyListMin_spec {v : List Value} (hall : v.all Value.isNum = true)
    (hne : v ≠ []) :
    ∃ q, pyListMin v = some q ∧ q ∈ v.map Value.toNum ∧
      ∀ x ∈ v.map Value.toNum, q ≤ x := by
  unfold pyListMin
  rw [if_pos hall]
  cases hv : v.map Value.toNum with
  | nil => exact absurd (List.map_eq_nil_iff.mp hv) hne
  | cons x xs =>
    refine ⟨xs.foldl min x, rfl, ?_, ?_⟩
    · rcases foldl_min_mem xs x with h | h
      · rw [h]; exact List.mem_cons_self x xs
      · exact List.mem_cons_of_mem x h
    · intro y hy
      rcases List.mem_cons.mp hy with rfl | hmem
      · exact foldl_min_le_init xs y
      · exact foldl_min_le_mem x hmem

theorem pyListMax_spec {v : List Value} (hall : v.all Value.isNum = true)
    (hne : v ≠ []) :
    ∃ q, pyListMax v = some q ∧ q ∈ v.map Value.toNum ∧
      ∀ x ∈ v.map Value.toNum, x ≤ q := by
  unfold pyListMax
  rw [if_pos hall]
  cases hv : v.map Value.toNum with
  | nil => exact absurd (List.map_eq_nil_iff.mp hv) hne
  | cons x xs =>
    refine ⟨xs.foldl max x, rfl, ?_, ?_⟩
    · rcases foldl_max_mem xs x with h | h
      · rw [h]; exact List.mem_cons_self x xs
      · exact List.mem_cons_of_mem x h
    · intro y hy
      rcases List.mem_cons.mp hy with rfl | hmem
      · exact le_foldl_max_init xs y
      · exact le_foldl_max_mem x hmem

theorem snd_eq_of_nodup_keys {ds : Dataset} (hnod : (ds.map Prod.fst).Nodup)
    {k : String} {v v' : List Value} (h1 : (k, v) ∈ ds) (h2 : (k, v') ∈ ds) :
    v = v' := by
  induction ds with
  | nil => cases h1
  | cons kv rest ih =>
    rw [List.map_cons, List.nodup_cons] at hnod
    rcases List.mem_cons.mp h1 with he1 | h1' <;>
      rcases List.mem_cons.mp h2 with he2 | h2'
    · exact congrArg Prod.snd (he1.trans he2.symm)
    · have hk : k ∈ List.map Prod.fst rest := by
        simpa using List.mem_map_of_mem Prod.fst h2'
      refine absurd ?_ hnod.1
      rw [← he1]
      exact hk
    · have hk : k ∈ List.map Prod.fst rest := by
        simpa using List.mem_map_of_mem Prod.fst h1'
      refine absurd ?_ hnod.1
      rw [← he2]
      exact hk
    · exact ih hnod.2 h1' h2'

theorem fieldKind_ne_skip_ne_nil {v : List Value} (h : fieldKind v ≠ .skip) :
    v ≠ [] := by
  intro hnil
  subst hnil
  exact h (fieldKind_skip_of_nil (by simp))

theorem truthyHead_eq_some {l : List String} {s : String}
    (h : truthyHead l = some s) : l.head? = some s ∧ s ≠ "" := by
  unfold truthyHead at h
  cases hl : l.head? with
  | none =>
    rw [hl] at h
    exact Option.noConfusion h
  | some s0 =>
    rw [hl] at h
    have h' : (if s0 = "" then (none : Option String) else some s0) = some s := h
    by_cases h0 : s0 = ""
    · rw [if_pos h0] at h'
      exact Option.noConfusion h'
    · rw [if_neg h0] at h'
      obtain rfl := Option.some.inj h'
      exact ⟨rfl, h0⟩

/-- The source's sequentially-built recommendation list coincides with the
specification's priority-ordered concatenation. -/
theorem recommendGraphTypes_eq_spec (a : Analysis) :
    recommendGraphTypes a = specRecommendGraphTypes a := by
  unfold recommendGraphTypes specRecommendGraphTypes
  by_cases ht : a.temporal_fields = [] <;>
    by_cases hb : 0 < a.categorical_fields.length <;>
      by_cases hp : a.categorical_fields.length = 1 ∧ 1 ≤ a.numerical_fields.length <;>
        by_cases hs : 2 ≤ a.numerical_fields.length <;>
          by_cases hh : 3 ≤ a.numerical_fields.length <;>
            (simp [ht, hb, hp, hs, hh, List.isEmpty_iff]; try (exfalso; omega))

/-! ## Claim C4 -/

/-- C4, counterexample: `dsNumericThenString` has a single field whose first
five values are numeric (the sample classifies it numeric) but whose sixth is
a string.  Computing `min` over the *entire* sequence then raises `TypeError`,
so the analysis aborts and records no classification and no ranges at all —
the claim's promised numeric classification with `{min, max, mean}` never
happens. -/
theorem c4_counterexample :
    ((dsNumericThenString.headD ("", [])).2.take 5).all Value.isNum = true ∧
    analyzeDataStructure dsNumericThenString =
      .error "TypeError: comparison not supported between numeric and non-numeric" :=
  ⟨rfl, rfl⟩

/-- C4 (amended): *provided the analysis completes without raising* — it
raises exactly when a field with an all-numeric sample has a non-numeric value
beyond the sample (see the counterexample) — classification reads only the
first `min(5, len)` values of each nonempty field: an all-numeric sample puts
the field in the numeric list and records `(min, max, mean)` over the entire
sequence (the recorded min/max are attained bounds over all values, the mean
times the length is the total sum); an all-string sample puts it in the
categorical list; an all-record sample records the union of sub-keys of the
sample; a mixed or empty sample leaves it out of both the numeric and
categorical lists. -/
theorem c4_field_classification (ds : Dataset) (a : Analysis)
    (h : analyzeDataStructure ds = .ok a) (k : String) (v : List Value)
    (hkv : (k, v) ∈ ds) :
    (fieldKind v = .numeric →
      k ∈ a.numerical_fields ∧ (k, fieldRange v) ∈ a.value_ranges ∧
      (fieldRange v).1 ∈ v.map Value.toNum ∧
      (∀ x ∈ v.map Value.toNum, (fieldRange v).1 ≤ x) ∧
      (fieldRange v).2.1 ∈ v.map Value.toNum ∧
      (∀ x ∈ v.map Value.toNum, x ≤ (fieldRange v).2.1) ∧
      (fieldRange v).2.2 * v.length = (v.map Value.toNum).sum) ∧
    (fieldKind v = .categorical → k ∈ a.categorical_fields) ∧
    (fieldKind v = .complex → (k, nestedKeys (v.take 5)) ∈ a.relationships) ∧
    (fieldKind v = .skip → (ds.map Prod.fst).Nodup →
      k ∉ a.numerical_fields ∧ k ∉ a.categorical_fields) := by
  obtain ⟨hgood, rfl⟩ := analyzeDataStructure_ok_inv h
  refine ⟨?_, ?_, ?_, ?_⟩
  · intro hkind
    have hall : v.all Value.isNum = true := hgood (k, v) hkv hkind
    have hne : v ≠ [] := fieldKind_ne_skip_ne_nil (by rw [hkind]; intro hc; cases hc)
    obtain ⟨qmin, hqmin, hminmem, hminle⟩ := pyListMin_spec hall hne
    obtain ⟨qmax, hqmax, hmaxmem, hmaxle⟩ := pyListMax_spec hall hne
    have hr1 : (fieldRange v).1 = qmin := by rw [fieldRange, hqmin]; rfl
    have hr2 : (fieldRange v).2.1 = qmax := by rw [fieldRange, hqmax]; rfl
    have hr3 : (fieldRange v).2.2 = (v.map Value.toNum).sum / v.length := by
      rw [fieldRange, pyListMean_eq hall]
      rfl
    refine ⟨?_, ?_, ?_, ?_, ?_, ?_, ?_⟩
    · simp only [accumulate, emptyAnalysis, List.nil_append]
      exact List.mem_map.mpr ⟨(k, v),
        List.mem_filter.mpr ⟨hkv, by simp [hkind]⟩, rfl⟩
    · simp only [accumulate, emptyAnalysis, List.nil_append]
      exact List.mem_map.mpr ⟨(k, v),
        List.mem_filter.mpr ⟨hkv, by simp [hkind]⟩, rfl⟩
    · rw [hr1]; exact hminmem
    · rw [hr1]; exact hminle
    · rw [hr2]; exact hmaxmem
    · rw [hr2]; exact hmaxle
    · rw [hr3]
      have hlen0 : 0 < v.length := List.length_pos.mpr hne
      have hlen : (v.length : ℚ) ≠ 0 := Nat.cast_ne_zero.mpr (by omega)
      field_simp
  · intro hkind
    simp only [accumulate, emptyAnalysis, List.nil_append]
    exact List.mem_map.mpr ⟨(k, v),
      List.mem_filter.mpr ⟨hkv, by simp [hkind]⟩, rfl⟩
  · intro hkind
    simp only [accumulate, emptyAnalysis, List.nil_append]
    exact List.mem_map.mpr ⟨(k, v),
      List.mem_filter.mpr ⟨hkv, by simp [hkind]⟩, rfl⟩
  · intro hkind hnod
    constructor
    · intro hmem
      simp only [accumulate, emptyAnalysis, List.nil_append] at hmem
      rcases List.mem_map.mp hmem with ⟨kv', hkv', hfst⟩
      rcases List.mem_filter.mp hkv' with ⟨hmem', hk'⟩
      obtain ⟨k2, v2⟩ := kv'
      obtain rfl : k2 = k := hfst
      have hv2 : v2 = v := snd_eq_of_nodup_keys hnod hmem' hkv
      rw [hv2] at hk'
      rw [hkind] at hk'
      exact absurd (of_decide_eq_true hk') (by intro hc; cases hc)
    · intro hmem
      simp only [accumulate, emptyAnalysis, List.nil_append] at hmem
      rcases List.mem_map.mp hmem with ⟨kv', hkv', hfst⟩
      rcases List.mem_filter.mp hkv' with ⟨hmem', hk'⟩
      obtain ⟨k2, v2⟩ := kv'
      obtain rfl : k2 = k := hfst
      have hv2 : v2 = v := snd_eq_of_nodup_keys hnod hmem' hkv
      rw [hv2] at hk'
      rw [hkind] at hk'
      exact absurd (of_decide_eq_true hk') (by intro hc; cases hc)

/-- Witness for `c4_field_classification` on a dataset with all four field
shapes; the numeric field lands in `numerical_fields`, the mixed-sample field
in neither list. -/
theorem c4_field_classification_witness :
    analyzeDataStructure dsAllKinds = .ok (accumulate emptyAnalysis dsAllKinds) ∧
    ("n", [Value.num 3, Value.num 1, Value.num 2]) ∈ dsAllKinds ∧
    fieldKind [Value.num 3, Value.num 1, Value.num 2] = .numeric ∧
    "n" ∈ (accumulate emptyAnalysis dsAllKinds).numerical_fields ∧
    ("m", [Value.num 1, Value.str "b"]) ∈ dsAllKinds ∧
    fieldKind [Value.num 1, Value.str "b"] = .skip ∧
    "m" ∉ (accumulate emptyAnalysis dsAllKinds).numerical_fields :=
  ⟨by rfl, by decide, by decide,
    ((c4_field_classification dsAllKinds _ (by rfl) "n"
      [Value.num 3, Value.num 1, Value.num 2] (by decide)).1 (by decide)).1,
    by decide, by decide,
    ((c4_field_classification dsAllKinds _ (by rfl) "m"
      [Value.num 1, Value.str "b"] (by decide)).2.2.2 (by decide) (by decide)).1⟩

/-! ## Claim C10 -/

/-- C10: no code path populates `temporal_fields`, so every successful
analysis leaves it empty; consequently the auto-recommender never proposes a
"line" chart; and whenever a line chart is generated its x-axis field is the
fallback choice — the first field of the dataset in insertion order. -/
theorem c10_no_temporal_fields (ds : Dataset) (a : Analysis)
    (h : analyzeDataStructure ds = .ok a) :
    a.temporal_fields = [] ∧
    "line" ∉ recommendGraphTypes a ∧
    (∀ xf yf x y, generateLineChart ds a = .line xf yf x y →
      (ds.map Prod.fst).head? = some xf) := by
  obtain ⟨-, rfl⟩ := analyzeDataStructure_ok_inv h
  have htemp : (accumulate emptyAnalysis ds).temporal_fields = [] := by
    simp [accumulate, emptyAnalysis]
  refine ⟨htemp, ?_, ?_⟩
  · intro hmem
    rw [recommendGraphTypes_eq_spec] at hmem
    unfold specRecommendGraphTypes at hmem
    rw [htemp] at hmem
    have hmem' := List.take_subset 3 _ hmem
    revert hmem'
    split_ifs <;> simp_all
  · intro xf yf x y hline
    unfold generateLineChart at hline
    rw [htemp] at hline
    simp only [List.find?_nil] at hline
    cases hx : truthyHead (List.map Prod.fst ds) with
    | none =>
      rw [hx] at hline
      cases truthyHead (accumulate emptyAnalysis ds).numerical_fields <;>
        exact Chart.noConfusion hline
    | some s =>
      rw [hx] at hline
      cases hy : truthyHead (accumulate emptyAnalysis ds).numerical_fields with
      | none =>
        rw [hy] at hline
        exact Chart.noConfusion hline
      | some s' =>
        rw [hy] at hline
        have hinj := Chart.line.inj hline
        rw [← hinj.1]
        exact (truthyHead_eq_some hx).1

/-- Witness for `c10_no_temporal_fields`: on `dsCatNum` the generated line
chart picks the first dataset field "cat" as x-axis. -/
theorem c10_no_temporal_fields_witness :
    analyzeDataStructure dsCatNum = .ok (accumulate emptyAnalysis dsCatNum) ∧
    (dsCatNum.map Prod.fst).head? = some "cat" :=
  ⟨by rfl, (c10_no_temporal_fields dsCatNum _ (by rfl)).2.2 "cat" "num"
    (dsCatNum.valuesOf "cat") (dsCatNum.valuesOf "num") (by rfl)⟩

theorem generateBarChart_err_of (ds : Dataset) (a : Analysis)
    (h : truthyHead a.categorical_fields = none ∨
      truthyHead a.numerical_fields = none) :
    generateBarChart ds a = .err "Insufficient data for bar chart" := by
  unfold generateBarChart
  rcases h with h | h
  · cases hy : truthyHead a.numerical_fields <;> rw [h]
  · cases hx : truthyHead a.categorical_fields <;> rw [h]

theorem generatePieChart_err_of (ds : Dataset) (a : Analysis)
    (h : truthyHead a.categorical_fields = none ∨
      truthyHead a.numerical_fields = none) :
    generatePieChart ds a = .err "Insufficient data for pie chart" := by
  unfold generatePieChart
  rcases h with h | h
  · cases hy : truthyHead a.numerical_fields <;> rw [h]
  · cases hx : truthyHead a.categorical_fields <;> rw [h]

theorem generateGraphFromData_ok (ds : Dataset) (a : Analysis) (t : String)
    (h : analyzeDataStructure ds = .ok a) :
    generateGraphFromData ds t =
      match ((if t = "auto" then recommendGraphTypes a else [t]).mapM
          (fun g => (generateSpecificGraph ds g a).map (fun c => (g, c)))) with
      | .error e => .error e
      | .ok graphs => .ok ⟨graphs, a, visualizationRecommendations a⟩ := by
  unfold generateGraphFromData
  rw [h]

/-! ## Claim C5 -/

/-- C5: with requested type "auto" the chart-type list is exactly the
specification's fixed priority order (line, bar, pie, scatter, heatmap, with
the bar default), truncated to the first 3; and on the concrete dataset with
one categorical field `["A","B","C"]` and one numeric field `[1,2,3]` the
result contains a "bar" chart pairing the two fields and also a "pie"
chart. -/
theorem c5_auto_priority_order :
    (∀ a : Analysis, recommendGraphTypes a = specRecommendGraphTypes a) ∧
    (∀ a : Analysis, (recommendGraphTypes a).length ≤ 3) ∧
    (∃ r, generateGraphFromData dsCatNum "auto" = .ok r ∧
      r.graphs.map Prod.fst = ["bar", "pie"] ∧
      r.graphs.lookup "bar" = some (.bar "cat" "num"
        [.str "A", .str "B", .str "C"] [.num 1, .num 2, .num 3]) ∧
      r.graphs.lookup "pie" = some (.pie "cat" "num"
        [.str "A", .str "B", .str "C"] [.num 1, .num 2, .num 3])) := by
  refine ⟨recommendGraphTypes_eq_spec, ?_, ⟨_, by rfl, by rfl, by rfl, by rfl⟩⟩
  intro a
  rw [recommendGraphTypes_eq_spec]
  unfold specRecommendGraphTypes
  exact List.length_take_le 3 _

/-! ## Claim C7 -/

/-- C7, counterexample: on a dataset of three numeric fields with unequal
lengths, "auto" requests both a scatter chart and a heatmap, but the heatmap
construction raises (`pd.DataFrame` rejects unequal columns) and the whole
call returns a single error — the scatter chart is not rendered, so a failing
construction does abort the batch. -/
theorem c7_counterexample :
    recommendGraphTypes (accumulate emptyAnalysis dsUnequalNum) =
      ["scatter", "heatmap"] ∧
    generateGraphFromData dsUnequalNum "auto" =
      .error "ValueError: All arrays must be of the same length" :=
  ⟨rfl, rfl⟩

/-- C7 (amended): chart constructions that fail their *field-requirement
guards* report the failure inline: bar and pie need a categorical and a
numeric field, pair the first of each, and return the insufficiency in the
payload when either list is empty; every non-heatmap constructor is total
(never raises); and for a single requested type whose constructor does not
raise, the call returns the full batch result with that one slot — an inline
error slot does not abort the call.  (Only the heatmap constructor can raise
and abort the whole batch, see the counterexample.) -/
theorem c7_guard_failures_inline (ds : Dataset) (a : Analysis)
    (h : analyzeDataStructure ds = .ok a) :
    (a.categorical_fields = [] ∨ a.numerical_fields = [] →
      generateBarChart ds a = .err "Insufficient data for bar chart" ∧
      generatePieChart ds a = .err "Insufficient data for pie chart") ∧
    (∀ t, t ≠ "heatmap" → ∃ c, generateSpecificGraph ds t a = .ok c) ∧
    (∀ t c, t ≠ "auto" → generateSpecificGraph ds t a = .ok c →
      generateGraphFromData ds t = .ok {
        graphs := [(t, c)]
        analysis := a
        recommendations := visualizationRecommendations a }) := by
  refine ⟨?_, ?_, ?_⟩
  · intro hempty
    have hnone : truthyHead a.categorical_fields = none ∨
        truthyHead a.numerical_fields = none := by
      rcases hempty with hc | hn
      · exact Or.inl (by rw [hc]; rfl)
      · exact Or.inr (by rw [hn]; rfl)
    exact ⟨generateBarChart_err_of ds a hnone, generatePieChart_err_of ds a hnone⟩
  · intro t ht
    unfold generateSpecificGraph
    by_cases h1 : t = "bar"
    · rw [if_pos h1]; exact ⟨_, rfl⟩
    · rw [if_neg h1]
      by_cases h2 : t = "line"
      · rw [if_pos h2]; exact ⟨_, rfl⟩
      · rw [if_neg h2]
        by_cases h3 : t = "pie"
        · rw [if_pos h3]; exact ⟨_, rfl⟩
        · rw [if_neg h3]
          by_cases h4 : t = "scatter"
          · rw [if_pos h4]; exact ⟨_, rfl⟩
          · rw [if_neg h4, if_neg ht]
            exact ⟨_, rfl⟩
  · intro t c ht hc
    rw [generateGraphFromData_ok ds a t h, if_neg ht]
    have hmap : List.mapM
        (fun g => (generateSpecificGraph ds g a).map (fun c => (g, c))) [t] =
        .ok [(t, c)] := by
      simp only [List.mapM_cons, List.mapM_nil, hc]
      rfl
    rw [hmap]

/-- Witness for `c7_guard_failures_inline`: a categorical-only dataset; bar
and pie report inline errors and an explicit "bar" request still returns the
batch result. -/
theorem c7_guard_failures_inline_witness :
    analyzeDataStructure dsCatOnly = .ok (accumulate emptyAnalysis dsCatOnly) ∧
    (accumulate emptyAnalysis dsCatOnly).numerical_fields = [] ∧
    generateBarChart dsCatOnly (accumulate emptyAnalysis dsCatOnly) =
      .err "Insufficient data for bar chart" ∧
    generatePieChart dsCatOnly (accumulate emptyAnalysis dsCatOnly) =
      .err "Insufficient data for pie chart" := by
  have hp := (c7_guard_failures_inline dsCatOnly _ (by rfl)).1 (Or.inr (by rfl))
  exact ⟨by rfl, by rfl, hp.1, hp.2⟩

/-! ## Claim C8 -/

/-- C8, counterexample: a dataset with exactly 2 equal-length numeric fields;
explicitly requesting "heatmap" yields the inline error payload "Need at
least 3 numerical fields for heatmap", not a heatmap — the constructor's
first guard requires three numeric fields, not two. -/
theorem c8_counterexample :
    (accumulate emptyAnalysis dsTwoNum).numerical_fields.length = 2 ∧
    analyzeDataStructure dsTwoNum = .ok (accumulate emptyAnalysis dsTwoNum) ∧
    generateGraphFromData dsTwoNum "heatmap" = .ok {
      graphs := [("heatmap", .err "Need at least 3 numerical fields for heatmap")]
      analysis := accumulate emptyAnalysis dsTwoNum
      recommendations :=
        visualizationRecommendations (accumulate emptyAnalysis dsTwoNum) } :=
  ⟨rfl, rfl, rfl⟩

/-- C8 (amended): the heatmap constructor requires at least *three* numeric
fields: with fewer, an explicit "heatmap" request returns the batch with an
inline error payload in the heatmap slot; with at least three numeric fields
whose sequences all have one common length, it returns a heatmap payload over
the first `min(5, ·)` numeric fields. -/
theorem c8_heatmap_needs_three_fields (ds : Dataset) (a : Analysis)
    (h : analyzeDataStructure ds = .ok a) :
    (a.numerical_fields.length < 3 →
      generateGraphFromData ds "heatmap" = .ok {
        graphs := [("heatmap", .err "Need at least 3 numerical fields for heatmap")]
        analysis := a
        recommendations := visualizationRecommendations a }) ∧
    (3 ≤ a.numerical_fields.length →
      (∀ f1 ∈ a.numerical_fields.take 5, ∀ f2 ∈ a.numerical_fields.take 5,
        (ds.valuesOf f1).length = (ds.valuesOf f2).length) →
      ∃ M, generateHeatmap ds a =
        .ok (.heatmap (a.numerical_fields.take 5) M)) := by
  have hkey : ∀ f ∈ a.numerical_fields, (ds.lookup f).isSome := by
    obtain ⟨-, rfl⟩ := analyzeDataStructure_ok_inv h
    intro f hf
    simp only [accumulate, emptyAnalysis, List.nil_append] at hf
    rcases List.mem_map.mp hf with ⟨kv, hkv, rfl⟩
    exact lookup_isSome_of_mem_keys
      (List.mem_map_of_mem Prod.fst (List.mem_filter.mp hkv).1)
  constructor
  · intro hlt
    have hhm : generateHeatmap ds a =
        .ok (.err "Need at least 3 numerical fields for heatmap") := by
      unfold generateHeatmap
      rw [if_pos hlt]
    rw [generateGraphFromData_ok ds a "heatmap" h,
      if_neg (by decide : ¬ ("heatmap" : String) = "auto")]
    have hsg : generateSpecificGraph ds "heatmap" a = generateHeatmap ds a := by
      unfold generateSpecificGraph
      rfl
    have hmap : List.mapM
        (fun g => (generateSpecificGraph ds g a).map (fun c => (g, c))) ["heatmap"] =
        .ok [("heatmap", .err "Need at least 3 numerical fields for heatmap")] := by
      simp only [List.mapM_cons, List.mapM_nil, hsg, hhm]
      rfl
    rw [hmap]
  · intro hge hlen
    have hfilter : (a.numerical_fields.take 5).filter
        (fun f => (ds.lookup f).isSome) = a.numerical_fields.take 5 :=
      List.filter_eq_self.mpr fun f hf => by
        simpa using hkey f (List.mem_of_mem_take hf)
    have ht5 : a.numerical_fields.take 5 ≠ [] := by
      intro hnil
      have : (a.numerical_fields.take 5).length = 0 := by rw [hnil]; rfl
      rw [List.length_take] at this
      omega
    have hall : (((a.numerical_fields.take 5).map
        (fun f => (ds.valuesOf f).map Value.toNum)).all
        (fun c => c.length = (((a.numerical_fields.take 5).map
          (fun f => (ds.valuesOf f).map Value.toNum)).headD []).length)) = true := by
      cases h5 : a.numerical_fields.take 5 with
      | nil => exact absurd h5 ht5
      | cons f0 rest =>
        rw [List.all_eq_true]
        intro col hcol
        rcases List.mem_map.mp hcol with ⟨f, hf, rfl⟩
        simp only [List.map_cons, List.headD_cons, List.length_map,
          decide_eq_true_eq]
        exact hlen f (h5.symm ▸ hf) f0 (h5.symm ▸ List.mem_cons_self f0 rest)
    have heq : generateHeatmap ds a = .ok (.heatmap (a.numerical_fields.take 5)
        (corrMatrix ((a.numerical_fields.take 5).map
          (fun f => (ds.valuesOf f).map Value.toNum)))) := by
      unfold generateHeatmap
      dsimp only
      rw [if_neg (by omega), hfilter, if_neg (by rw [List.length_take]; omega),
        if_pos hall]
    exact ⟨_, heq⟩

/-- Witness for `c8_heatmap_needs_three_fields`: on `dsThreeNum` (three
numeric fields, all of length 2) the heatmap payload is produced. -/
theorem c8_heatmap_needs_three_fields_witness :
    analyzeDataStructure dsThreeNum = .ok (accumulate emptyAnalysis dsThreeNum) ∧
    3 ≤ (accumulate emptyAnalysis dsThreeNum).numerical_fields.length ∧
    ∃ M, generateHeatmap dsThreeNum (accumulate emptyAnalysis dsThreeNum) =
      .ok (.heatmap ((accumulate emptyAnalysis dsThreeNum).numerical_fields.take 5) M) :=
  ⟨by rfl, by decide,
    (c8_heatmap_needs_three_fields dsThreeNum _ (by rfl)).2 (by decide) (by decide)⟩

/-! ## Claim C6: Pearson correlation facts -/

theorem sq_sum_nonneg (l : List ℚ) : 0 ≤ (l.map (fun a => a ^ 2)).sum := by
  apply List.sum_nonneg
  intro x hx
  rcases List.mem_map.mp hx with ⟨y, -, rfl⟩
  exact sq_nonneg y

theorem zipWith_mul_sq_le (l1 l2 : List ℚ) :
    ((l1.zipWith (· * ·) l2).sum) ^ 2 ≤
      (l1.map (fun a => a ^ 2)).sum * (l2.map (fun a => a ^ 2)).sum := by
  induction l1 generalizing l2 with
  | nil =>
    simp
  | cons a t1 ih =>
    cases l2 with
    | nil => simp
    | cons b t2 =>
      have hS := ih t2
      have hA := sq_sum_nonneg t1
      have hB := sq_sum_nonneg t2
      simp only [List.zipWith_cons_cons, List.map_cons, List.sum_cons]
      set S := (t1.zipWith (· * ·) t2).sum with hSdef
      set A := (t1.map (fun a => a ^ 2)).sum with hAdef
      set B := (t2.map (fun a => a ^ 2)).sum with hBdef
      have h0 : 0 ≤ a ^ 2 * B + b ^ 2 * A := by positivity
      have h1 : (2 * a * b * S) ^ 2 ≤ (a ^ 2 * B + b ^ 2 * A) ^ 2 := by
        nlinarith [sq_nonneg (a ^ 2 * B - b ^ 2 * A),
          mul_nonneg (sq_nonneg (a * b)) (sub_nonneg.mpr hS)]
      have h2 : 2 * a * b * S ≤ a ^ 2 * B + b ^ 2 * A := by
        nlinarith [h1, h0]
      nlinarith [h2, sub_nonneg.mpr hS]

theorem covSum_symm (xs ys : List ℚ) : covSum xs ys = covSum ys xs := by
  unfold covSum
  rw [List.zipWith_comm_of_comm (· * ·) mul_comm]

theorem covSum_self_eq (xs : List ℚ) :
    covSum xs xs = ((centered xs).map (fun a => a ^ 2)).sum := by
  unfold covSum
  rw [List.zipWith_same]
  congr 1
  apply List.map_congr_left
  intro a ha
  rw [pow_two]

theorem covSum_self_nonneg (xs : List ℚ) : 0 ≤ covSum xs xs := by
  rw [covSum_self_eq]
  exact sq_sum_nonneg (centered xs)

theorem covSum_sq_le (xs ys : List ℚ) :
    (covSum xs ys) ^ 2 ≤ covSum xs xs * covSum ys ys := by
  rw [covSum_self_eq, covSum_self_eq]
  exact zipWith_mul_sq_le (centered xs) (centered ys)

theorem pearson_symm (xs ys : List ℚ) : pearson xs ys = pearson ys xs := by
  unfold pearson
  rw [covSum_symm xs ys, mul_comm]

theorem abs_pearson_le_one (xs ys : List ℚ) : |pearson xs ys| ≤ 1 := by
  unfold pearson
  have hA : (0 : ℝ) ≤ (covSum xs xs : ℚ) := by
    exact_mod_cast covSum_self_nonneg xs
  have hB : (0 : ℝ) ≤ (covSum ys ys : ℚ) := by
    exact_mod_cast covSum_self_nonneg ys
  have hc2 : ((covSum xs ys : ℚ) : ℝ) ^ 2 ≤
      ((covSum xs xs : ℚ) : ℝ) * ((covSum ys ys : ℚ) : ℝ) := by
    exact_mod_cast covSum_sq_le xs ys
  by_cases hd : Real.sqrt (covSum xs xs) * Real.sqrt (covSum ys ys) = 0
  · rw [hd, div_zero, abs_zero]
    exact zero_le_one
  · have hdnn : 0 ≤ Real.sqrt (covSum xs xs) * Real.sqrt (covSum ys ys) :=
      mul_nonneg (Real.sqrt_nonneg _) (Real.sqrt_nonneg _)
    have hdpos : 0 < Real.sqrt (covSum xs xs) * Real.sqrt (covSum ys ys) :=
      lt_of_le_of_ne hdnn (Ne.symm hd)
    rw [abs_div, abs_of_pos hdpos, div_le_one hdpos]
    calc |((covSum xs ys : ℚ) : ℝ)|
        = Real.sqrt (((covSum xs ys : ℚ) : ℝ) ^ 2) := (Real.sqrt_sq_eq_abs _).symm
      _ ≤ Real.sqrt (((covSum xs xs : ℚ) : ℝ) * ((covSum ys ys : ℚ) : ℝ)) :=
          Real.sqrt_le_sqrt hc2
      _ = Real.sqrt (covSum xs xs) * Real.sqrt (covSum ys ys) :=
          Real.sqrt_mul hA _

theorem pearson_self (xs : List ℚ) (h : covSum xs xs ≠ 0) :
    pearson xs xs = 1 := by
  unfold pearson
  have hA : (0 : ℝ) ≤ (covSum xs xs : ℚ) := by
    exact_mod_cast covSum_self_nonneg xs
  have hne : ((covSum xs xs : ℚ) : ℝ) ≠ 0 := by
    exact_mod_cast h
  rw [Real.mul_self_sqrt hA]
  exact div_self hne

/-! ## Claim C6 -/

/-- C6, counterexample, refuting the claim at two concrete inputs.  First,
`dsThreeNumOneCat` has three equal-length numeric fields, yet with requested
type "auto" the recommendation list is truncated to `["bar", "pie",
"scatter"]` — the heatmap is *not* among the generated charts, because the
categorical field's bar and pie outrank it in the fixed priority order.
Second, `dsConstNum` (three equal-length numeric fields, the first constant)
does get a heatmap, but its top-left diagonal entry is
`pearson [5,5] [5,5]`, a division by zero — NaN in pandas, `0` in this
embedding, in either case not `1` — so the matrix does not have a unit
diagonal. -/
theorem c6_counterexample :
    ((accumulate emptyAnalysis dsThreeNumOneCat).numerical_fields.length = 3 ∧
      analyzeDataStructure dsThreeNumOneCat =
        .ok (accumulate emptyAnalysis dsThreeNumOneCat) ∧
      recommendGraphTypes (accumulate emptyAnalysis dsThreeNumOneCat) =
        ["bar", "pie", "scatter"] ∧
      ∃ r, generateGraphFromData dsThreeNumOneCat "auto" = .ok r ∧
        r.graphs.map Prod.fst = ["bar", "pie", "scatter"]) ∧
    ((∃ r, generateGraphFromData dsConstNum "auto" = .ok r ∧
        ("heatmap", Chart.heatmap ["a", "b", "c"]
          (corrMatrix [[5, 5], [1, 2], [2, 1]])) ∈ r.graphs) ∧
      pearson [(5 : ℚ), 5] [(5 : ℚ), 5] ≠ 1) := by
  refine ⟨⟨rfl, rfl, rfl, ⟨_, rfl, rfl⟩⟩,
    ⟨_, by rfl, List.Mem.tail _ (List.Mem.head _)⟩, ?_⟩
  have hz : covSum [(5 : ℚ), 5] [(5 : ℚ), 5] = 0 := by
    norm_num [covSum, centered, mean]
  unfold pearson
  rw [hz]
  norm_num

/-- C6 (amended): the heatmap's correlation matrix entry function is symmetric
and every entry lies in `[-1, 1]`; a diagonal entry equals 1 whenever the
column has nonzero variance (a constant column divides by zero — NaN in
pandas, 0 in this embedding — rather than 1, and a dataset whose categorical
field crowds heatmap out of the top three shows inclusion needs no categorical
fields); for a dataset of at least three numeric fields and no categorical or
temporal fields, "heatmap" is recommended, and on the concrete `dsThreeNum`
the generated charts contain the heatmap with the pairwise Pearson matrix of
its three columns. -/
theorem c6_heatmap_matrix_properties :
    (∀ xs ys : List ℚ, pearson xs ys = pearson ys xs) ∧
    (∀ xs ys : List ℚ, -1 ≤ pearson xs ys ∧ pearson xs ys ≤ 1) ∧
    (∀ xs : List ℚ, covSum xs xs ≠ 0 → pearson xs xs = 1) ∧
    (∀ a : Analysis, a.categorical_fields = [] → a.temporal_fields = [] →
      3 ≤ a.numerical_fields.length → "heatmap" ∈ recommendGraphTypes a) ∧
    (∃ r, generateGraphFromData dsThreeNum "auto" = .ok r ∧
      ("heatmap", Chart.heatmap ["a", "b", "c"]
        (corrMatrix [[1, 2], [2, 4], [2, 1]])) ∈ r.graphs) := by
  refine ⟨pearson_symm, ?_, pearson_self, ?_, ?_⟩
  · intro xs ys
    exact abs_le.mp (abs_pearson_le_one xs ys)
  · intro a hcat htemp hnum
    rw [recommendGraphTypes_eq_spec]
    unfold specRecommendGraphTypes
    rw [htemp, hcat]
    have h2 : 2 ≤ a.numerical_fields.length := by omega
    simp [h2, hnum]
  · refine ⟨_, by rfl, ?_⟩
    exact List.Mem.tail _ (List.Mem.head _)

/-- Witness for `c6_heatmap_matrix_properties`: the column `[1, 2]` has
nonzero variance and unit self-correlation; a three-numeric-field analysis
with no categorical fields recommends the heatmap. -/
theorem c6_heatmap_matrix_properties_witness :
    covSum [(1 : ℚ), 2] [(1 : ℚ), 2] ≠ 0 ∧
    pearson [(1 : ℚ), 2] [(1 : ℚ), 2] = 1 ∧
    ((accumulate emptyAnalysis dsThreeNum).categorical_fields = [] ∧
      (accumulate emptyAnalysis dsThreeNum).temporal_fields = [] ∧
      3 ≤ (accumulate emptyAnalysis dsThreeNum).numerical_fields.length) ∧
    "heatmap" ∈ recommendGraphTypes (accumulate emptyAnalysis dsThreeNum) := by
  have hc : covSum [(1 : ℚ), 2] [(1 : ℚ), 2] ≠ 0 := by
    norm_num [covSum, centered, mean]
  exact ⟨hc, c6_heatmap_matrix_properties.2.2.1 [(1 : ℚ), 2] hc,
    ⟨by rfl, by rfl, by decide⟩,
    c6_heatmap_matrix_properties.2.2.2.1 _ (by rfl) (by rfl) (by decide)⟩

end GenomicsVariants
